import Mathlib

/-!
Shallow embedding of `src/libraries/WiFi/src/WiFiServer.cpp` (the WiFiServer
TCP listener façade over lwIP) and proofs about its pending-connection queue,
backlog accounting, begin/close lifecycle and accessors.

Modelling conventions:
  * The intrusive singly-linked `_unclaimed` list of `ClientContext*` is
    modelled as a `List ClientContext`; `slist_append_tail` is translated
    with the same head-traversal recursion as the C++ template.
  * lwIP is modelled by a `Stack` environment recording which pcb handles are
    allocated (`live`), whether `tcp_new` / `tcp_bind` /
    `tcp_listen_with_backlog` succeed, and the ephemeral port the stack would
    assign to a bind on port 0.
  * `accepts_pending` lives on the listening pcb stored in `_listen_pcb`.
    In lwIP the counter is incremented when the connection is created and
    `tcp_backlog_delayed` defers the decrement that would otherwise happen
    when the accept callback returns; the net effect per queued connection is
    +1 while queued, which is how `tcp_backlog_delayed` is modelled here.
    `tcp_backlog_accepted` performs the deferred decrement.
  * The build is taken with `TCP_LISTEN_BACKLOG` enabled (the branch the file
    is written for: it is the one that uses `tcp_backlog_delayed` /
    `tcp_backlog_accepted`).
  * `WiFiClient::getDefaultNoDelay()` is a process-wide global; it is passed
    explicitly as the `gd` argument where needed.
-/

namespace WiFiServerModel

/-- lwIP `tcp_state` code `CLOSED` (also the sentinel `status()` returns with
no listening pcb). -/
def CLOSED : Nat := 0

/-- lwIP `tcp_state` code `LISTEN`. -/
def LISTEN : Nat := 1

/-- `#define MAX_PENDING_CLIENTS_PER_PORT 5` (compile-time default). -/
def MAX_PENDING_CLIENTS_PER_PORT : Nat := 5

/-- A `ClientContext` (external collaborator): identity of the wrapped
connection, the underlying connection pcb (`getPCB()`, `none` once the peer
has closed), and the buffered byte count (`getSize()`). The intrusive `next`
link is represented by list structure. -/
structure ClientContext where
  cid : Nat
  getPCB : Option Nat
  getSize : Nat
deriving Repr, DecidableEq

/-- A listening `tcp_pcb` as far as WiFiServer reads it: handle identity,
`local_port`, `state`, the backlog capacity it was created with, and
`accepts_pending`. -/
structure TcpPcb where
  id : Nat
  local_port : Nat
  state : Nat
  backlog : Nat
  accepts_pending : Nat
deriving Repr, DecidableEq

/-- The lwIP environment: allocated pcb handles plus the oracle for the
three fallible calls `begin` makes, and the ephemeral port a bind on port 0
would receive. -/
structure Stack where
  live : List Nat
  nextId : Nat
  allocOk : Bool
  bindOk : Bool
  listenOk : Bool
  ephemeral : Nat
deriving Repr, DecidableEq

/-- The `_noDelay` tri-state member. -/
inductive NoDelayMode where
  | ndDefault
  | ndFalse
  | ndTrue
deriving Repr, DecidableEq

/-- The WiFiServer object state: `_port`, `_addr`, `_listen_pcb`,
the `_unclaimed` pending queue, and `_noDelay`. -/
structure WiFiServer where
  _port : Nat
  _addr : Nat
  _listen_pcb : Option TcpPcb
  _unclaimed : List ClientContext
  _noDelay : NoDelayMode
deriving Repr, DecidableEq

/-- The two constructors collapse to this: pcb null, queue empty, tri-state
unset. -/
def mkWiFiServer (addr port : Nat) : WiFiServer :=
  { _port := port, _addr := addr, _listen_pcb := none, _unclaimed := [],
    _noDelay := NoDelayMode.ndDefault }

/-- A `WiFiClient` as `accept` builds it: the wrapped context (or `none` for
the empty `WiFiClient()`), and the no-delay value `setNoDelay` stored on it. -/
structure WiFiClient where
  ctx : Option ClientContext
  noDelay : Option Bool
deriving Repr, DecidableEq

def WiFiClient.setNoDelay (w : WiFiClient) (b : Bool) : WiFiClient :=
  { w with noDelay := some b }

/-- `tcp_new()`: allocate a fresh pcb handle, or fail. -/
def tcp_new (s : Stack) : Stack × Option Nat :=
  if s.allocOk then
    ({ s with live := s.nextId :: s.live, nextId := s.nextId + 1 }, some s.nextId)
  else (s, none)

/-- `tcp_close(pcb)`: release the handle. -/
def tcp_close (s : Stack) (pid : Nat) : Stack :=
  { s with live := s.live.erase pid }

/-- `tcp_bind(pcb, addr, port)`: on `ERR_OK` returns the bound local port
(the stack-assigned ephemeral port when `port = 0`), else `none`. -/
def tcp_bind (s : Stack) (_addr port : Nat) : Option Nat :=
  if s.bindOk then some (if port = 0 then s.ephemeral else port) else none

/-- `tcp_listen_with_backlog(pcb, backlog)`: on success frees the bound pcb
and returns a fresh listening pcb in state `LISTEN` carrying its local port,
backlog capacity and a zero `accepts_pending`; on failure returns `none`
leaving the bound pcb allocated. -/
def tcp_listen_with_backlog (s : Stack) (pid local_port backlog : Nat) :
    Stack × Option TcpPcb :=
  if s.listenOk then
    ({ s with live := s.nextId :: s.live.erase pid, nextId := s.nextId + 1 },
     some { id := s.nextId, local_port := local_port, state := LISTEN,
            backlog := backlog, accepts_pending := 0 })
  else (s, none)

/-- `tcp_backlog_delayed(apcb)`: keep the accepted connection counted in the
listener's `accepts_pending` (net +1 per queued connection, see header
comment). -/
def tcp_backlog_delayed (srv : WiFiServer) : WiFiServer :=
  { srv with
    _listen_pcb :=
      srv._listen_pcb.map (fun p => { p with accepts_pending := p.accepts_pending + 1 }) }

/-- `tcp_backlog_accepted(pcb)`: perform the deferred decrement of the
listener's `accepts_pending`. -/
def tcp_backlog_accepted (srv : WiFiServer) : WiFiServer :=
  { srv with
    _listen_pcb :=
      srv._listen_pcb.map (fun p => { p with accepts_pending := p.accepts_pending - 1 }) }

/-- `WiFiServer::close()`: nothing if no listening pcb, else `tcp_close` it
and null the member. -/
def WiFiServer.close (srv : WiFiServer) (s : Stack) : WiFiServer × Stack :=
  match srv._listen_pcb with
  | none => (srv, s)
  | some pcb => ({ srv with _listen_pcb := none }, tcp_close s pcb.id)

/-- `WiFiServer::stop()`: alias of `close`. -/
def WiFiServer.stop (srv : WiFiServer) (s : Stack) : WiFiServer × Stack :=
  srv.close s

/-- `WiFiServer::begin(port, backlog)`: close, bail out on zero backlog,
record the port, then `tcp_new` / `tcp_bind` / `tcp_listen_with_backlog` with
each failure returning silently (closing the intermediate pcb where the C++
does); on success store the listening pcb and the effective bound port. -/
def WiFiServer.begin (srv : WiFiServer) (s : Stack) (port backlog : Nat) :
    WiFiServer × Stack :=
  let closed := srv.close s
  let srv0 := closed.1
  let s0 := closed.2
  if backlog = 0 then (srv0, s0)
  else
    let srv1 := { srv0 with _port := port }
    let n := tcp_new s0
    match n.2 with
    | none => (srv1, n.1)
    | some pid =>
      match tcp_bind n.1 srv1._addr srv1._port with
      | none => (srv1, tcp_close n.1 pid)
      | some bound_port =>
        let l := tcp_listen_with_backlog n.1 pid bound_port backlog
        match l.2 with
        | none => (srv1, tcp_close l.1 pid)
        | some listen_pcb =>
          ({ srv1 with _listen_pcb := some listen_pcb,
                       _port := listen_pcb.local_port }, l.1)

/-- `WiFiServer::begin(port)`: default backlog. -/
def WiFiServer.beginPort (srv : WiFiServer) (s : Stack) (port : Nat) :
    WiFiServer × Stack :=
  srv.begin s port MAX_PENDING_CLIENTS_PER_PORT

/-- `WiFiServer::setNoDelay(bool)`. -/
def WiFiServer.setNoDelay (srv : WiFiServer) (nodelay : Bool) : WiFiServer :=
  { srv with _noDelay := if nodelay then NoDelayMode.ndTrue else NoDelayMode.ndFalse }

/-- `WiFiServer::getNoDelay()`; `gd` is the global
`WiFiClient::getDefaultNoDelay()`. -/
def WiFiServer.getNoDelay (srv : WiFiServer) (gd : Bool) : Bool :=
  match srv._noDelay with
  | NoDelayMode.ndFalse => false
  | NoDelayMode.ndTrue => true
  | NoDelayMode.ndDefault => gd

/-- `WiFiServer::hasClient()`: true iff `_unclaimed` is non-null. -/
def WiFiServer.hasClient (srv : WiFiServer) : Bool :=
  match srv._unclaimed with
  | [] => false
  | _ :: _ => true

/-- The `while (next)` loop of `hasClientData`: return the size of the first
context with a non-zero buffered byte count, else 0. -/
def hasClientDataLoop : List ClientContext → Nat
  | [] => 0
  | c :: rest => if c.getSize ≠ 0 then c.getSize else hasClientDataLoop rest

/-- `WiFiServer::hasClientData()`. -/
def WiFiServer.hasClientData (srv : WiFiServer) : Nat :=
  hasClientDataLoop srv._unclaimed

/-- `WiFiServer::hasMaxPendingClients()` (with `TCP_LISTEN_BACKLOG` on):
`accepts_pending >= MAX_PENDING_CLIENTS_PER_PORT` read off `_listen_pcb`.
The C++ dereferences `_listen_pcb` unconditionally (undefined behaviour when
closed); the `none` branch is the unreachable-in-use case. -/
def WiFiServer.hasMaxPendingClients (srv : WiFiServer) : Bool :=
  match srv._listen_pcb with
  | some pcb => MAX_PENDING_CLIENTS_PER_PORT ≤ pcb.accepts_pending
  | none => false

/-- `WiFiServer::status()`: `CLOSED` sentinel without a pcb, else the pcb's
state. -/
def WiFiServer.status (srv : WiFiServer) : Nat :=
  match srv._listen_pcb with
  | none => CLOSED
  | some pcb => pcb.state

/-- `WiFiServer::port()`. -/
def WiFiServer.port (srv : WiFiServer) : Nat :=
  srv._port

/-- `WiFiServer::accept()`: pop the head of `_unclaimed` (if any), release
its backlog slot only when its pcb is non-null, apply the no-delay policy to
the result, and return it; empty `WiFiClient()` when the queue is empty. -/
def WiFiServer.accept (srv : WiFiServer) (gd : Bool) : WiFiServer × WiFiClient :=
  match srv._unclaimed with
  | c :: rest =>
    let result : WiFiClient := { ctx := some c, noDelay := none }
    let srv1 := match c.getPCB with
      | some _ => tcp_backlog_accepted srv
      | none => srv
    let srv2 := { srv1 with _unclaimed := rest }
    (srv2, result.setNoDelay (srv2.getNoDelay gd))
  | [] => (srv, { ctx := none, noDelay := none })

/-- `WiFiServer::available(status)`: discards `status`, forwards to
`accept`. -/
def WiFiServer.available (srv : WiFiServer) (gd : Bool) : WiFiServer × WiFiClient :=
  srv.accept gd

/-- `slist_append_tail`: traverse from the head to the last node and hang the
item there; the item becomes the head of an empty list. -/
def slist_append_tail {T : Type} : List T → T → List T
  | [], item => [item]
  | x :: rest, item => x :: slist_append_tail rest item

/-- The context the accept callback builds:
`new ClientContext(apcb, &_s_discard, this)` — wraps the handle, no buffered
data yet. -/
def newClientContext (apcb : Nat) : ClientContext :=
  { cid := apcb, getPCB := some apcb, getSize := 0 }

/-- `WiFiServer::_accept(apcb, err)`: unconditionally wrap the new pcb in a
context, `tcp_backlog_delayed` it, and append it at the tail of
`_unclaimed`. -/
def WiFiServer._accept (srv : WiFiServer) (apcb : Nat) : WiFiServer :=
  let client := newClientContext apcb
  let srv1 := tcp_backlog_delayed srv
  { srv1 with _unclaimed := slist_append_tail srv1._unclaimed client }

/-- Invoke the accept callback once per inbound connection, in arrival
order. -/
def deliverAll (srv : WiFiServer) : List Nat → WiFiServer
  | [] => srv
  | h :: hs => deliverAll (srv._accept h) hs

/-- `n` successive `accept()` calls, returning the clients in call order. -/
def acceptN (srv : WiFiServer) (gd : Bool) : Nat → WiFiServer × List WiFiClient
  | 0 => (srv, [])
  | n + 1 =>
    let step := srv.accept gd
    let rest := acceptN step.1 gd n
    (rest.1, step.2 :: rest.2)

/-- Events of the listener's environment: the application's `begin`, `close`
and `accept` calls, the stack delivering an inbound connection to the accept
callback, data arriving on a queued context, and a peer closing a queued
context (its pcb becomes null). -/
inductive Event where
  | beginEv (port backlog : Nat)
  | closeEv
  | deliver (apcb : Nat)
  | appAccept
  | dataArrives (cid n : Nat)
  | peerCloses (cid : Nat)
deriving Repr, DecidableEq

/-- Server-plus-stack state with ghost history: the cids produced by the
accept callback in order, and the cids returned by `accept()` in order. -/
structure Trace where
  srv : WiFiServer
  stk : Stack
  produced : List Nat
  claimed : List Nat
deriving Repr, DecidableEq

def stepTrace (gd : Bool) (t : Trace) : Event → Trace
  | Event.beginEv p b =>
    let r := t.srv.begin t.stk p b
    { t with srv := r.1, stk := r.2 }
  | Event.closeEv =>
    let r := t.srv.close t.stk
    { t with srv := r.1, stk := r.2 }
  | Event.deliver apcb =>
    { t with srv := t.srv._accept apcb, produced := t.produced ++ [apcb] }
  | Event.appAccept =>
    let r := t.srv.accept gd
    { t with srv := r.1,
             claimed := match r.2.ctx with
               | some c => t.claimed ++ [c.cid]
               | none => t.claimed }
  | Event.dataArrives i n =>
    { t with
      srv := { t.srv with
        _unclaimed :=
          t.srv._unclaimed.map (fun c => if c.cid = i then { c with getSize := n } else c) } }
  | Event.peerCloses i =>
    { t with
      srv := { t.srv with
        _unclaimed :=
          t.srv._unclaimed.map (fun c => if c.cid = i then { c with getPCB := none } else c) } }

def runTrace (gd : Bool) (t : Trace) : List Event → Trace
  | [] => t
  | e :: es => runTrace gd (stepTrace gd t e) es

/-- The connection identities currently held by the pending queue, head
first. -/
def queueCids (srv : WiFiServer) : List Nat :=
  srv._unclaimed.map ClientContext.cid

/-- The pending-queue bookkeeping invariant: the callback-produced history
is exactly the claimed history followed by the current queue. -/
def traceInv (t : Trace) : Prop :=
  t.produced = t.claimed ++ queueCids t.srv

/-- A stack environment in which every lwIP call succeeds and a bind on
port 0 is assigned ephemeral port 49152. -/
def okStack : Stack :=
  { live := [], nextId := 0, allocOk := true, bindOk := true, listenOk := true,
    ephemeral := 49152 }

/-- A listener opened with `begin(1234, 3)` that has then received three
inbound connections, none claimed: its `accepts_pending` equals the
configured backlog capacity 3. -/
def srvBacklog3 : WiFiServer :=
  deliverAll ((mkWiFiServer 0 1234).begin okStack 1234 3).1 [10, 11, 12]

/-- A listener opened with `begin(80, 5)`, together with the stack state
after that call. -/
def openedSrv : WiFiServer × Stack :=
  (mkWiFiServer 0 80).begin okStack 80 5

/-- `openedSrv` after one inbound connection was delivered to the accept
callback and not claimed. -/
def busySrv : WiFiServer :=
  deliverAll openedSrv.1 [7]

/-- `busySrv` after a subsequent `begin(80, 0)` (zero backlog). -/
def zeroedSrv : WiFiServer × Stack :=
  busySrv.begin openedSrv.2 80 0

/-- A queue state for the peek-ahead example: head context with 0 buffered
bytes, second context with 5. -/
def peekQueueSrv : WiFiServer :=
  { mkWiFiServer 0 80 with
    _unclaimed := [{ cid := 1, getPCB := some 1, getSize := 0 },
                   { cid := 2, getPCB := some 2, getSize := 5 }] }

/-! ### Helper lemmas -/

theorem slist_append_tail_eq {T : Type} (l : List T) (x : T) :
    slist_append_tail l x = l ++ [x] := by
  induction l with
  | nil => rfl
  | cons a l ih => simp [slist_append_tail, ih]

theorem accept_cb_unclaimed (srv : WiFiServer) (apcb : Nat) :
    (srv._accept apcb)._unclaimed = srv._unclaimed ++ [newClientContext apcb] := by
  simp [WiFiServer._accept, tcp_backlog_delayed, slist_append_tail_eq]

theorem accept_cb_listen_pcb (srv : WiFiServer) (apcb : Nat) :
    (srv._accept apcb)._listen_pcb =
      srv._listen_pcb.map (fun p => { p with accepts_pending := p.accepts_pending + 1 }) := by
  simp [WiFiServer._accept, tcp_backlog_delayed]

theorem close_fst_unclaimed (srv : WiFiServer) (s : Stack) :
    (srv.close s).1._unclaimed = srv._unclaimed := by
  cases h : srv._listen_pcb <;> simp [WiFiServer.close, h]

theorem close_fst_listen_pcb (srv : WiFiServer) (s : Stack) :
    (srv.close s).1._listen_pcb = none := by
  cases h : srv._listen_pcb <;> simp [WiFiServer.close, h]

theorem close_fst_port (srv : WiFiServer) (s : Stack) :
    (srv.close s).1._port = srv._port := by
  cases h : srv._listen_pcb <;> simp [WiFiServer.close, h]

theorem close_snd_oracle (srv : WiFiServer) (s : Stack) :
    ((srv.close s).2).allocOk = s.allocOk ∧ ((srv.close s).2).bindOk = s.bindOk ∧
    ((srv.close s).2).listenOk = s.listenOk ∧ ((srv.close s).2).nextId = s.nextId ∧
    ((srv.close s).2).ephemeral = s.ephemeral := by
  cases h : srv._listen_pcb <;> simp [WiFiServer.close, tcp_close, h]

theorem begin_fst_unclaimed (srv : WiFiServer) (s : Stack) (p b : Nat) :
    ((srv.begin s p b).1)._unclaimed = srv._unclaimed := by
  unfold WiFiServer.begin
  dsimp only
  repeat' split
  all_goals simp [close_fst_unclaimed]

theorem begin_zero_backlog (srv : WiFiServer) (s : Stack) (p : Nat) :
    srv.begin s p 0 = srv.close s := by
  simp [WiFiServer.begin]

theorem deliverAll_unclaimed (hs : List Nat) : ∀ srv : WiFiServer,
    (deliverAll srv hs)._unclaimed = srv._unclaimed ++ hs.map newClientContext := by
  induction hs with
  | nil => intro srv; simp [deliverAll]
  | cons h hs ih =>
    intro srv
    simp [deliverAll, ih, accept_cb_unclaimed]

theorem deliverAll_listen_pcb (hs : List Nat) : ∀ srv : WiFiServer,
    (deliverAll srv hs)._listen_pcb =
      srv._listen_pcb.map
        (fun p => { p with accepts_pending := p.accepts_pending + hs.length }) := by
  induction hs with
  | nil =>
    intro srv
    cases h : srv._listen_pcb <;> simp [deliverAll, h]
  | cons a hs ih =>
    intro srv
    rw [deliverAll, ih, accept_cb_listen_pcb]
    cases h : srv._listen_pcb <;> simp [h, Nat.add_assoc, Nat.add_comm 1 hs.length]

theorem accept_head (srv : WiFiServer) (gd : Bool) (c : ClientContext)
    (rest : List ClientContext) (h : srv._unclaimed = c :: rest) :
    ((srv.accept gd).1._unclaimed = rest) ∧ ((srv.accept gd).2.ctx = some c) := by
  cases hc : c.getPCB <;>
    simp [WiFiServer.accept, h, hc, WiFiClient.setNoDelay]

theorem accept_empty (srv : WiFiServer) (gd : Bool) (h : srv._unclaimed = []) :
    srv.accept gd = (srv, { ctx := none, noDelay := none }) := by
  simp [WiFiServer.accept, h]

theorem begin_fail (srv : WiFiServer) (s : Stack) (p b : Nat)
    (hfail : s.allocOk = false ∨ s.bindOk = false ∨ s.listenOk = false) :
    (srv.begin s p b).1._listen_pcb = none ∧
    ((srv.begin s p b).2).live = ((srv.close s).2).live := by
  by_cases hb : b = 0
  · subst hb; rw [begin_zero_backlog]; exact ⟨close_fst_listen_pcb srv s, rfl⟩
  · unfold WiFiServer.begin
    dsimp only
    cases h : srv._listen_pcb <;>
      cases ha : s.allocOk <;> cases hbd : s.bindOk <;> cases hlk : s.listenOk <;>
        simp_all [WiFiServer.close, tcp_close, tcp_new, tcp_bind, tcp_listen_with_backlog,
          List.erase_cons_head]

theorem begin_success (srv : WiFiServer) (s : Stack) (p b : Nat)
    (hb : b ≠ 0) (ha : s.allocOk = true) (hbd : s.bindOk = true) (hlk : s.listenOk = true) :
    (srv.begin s p b).1._listen_pcb =
      some { id := s.nextId + 1, local_port := if p = 0 then s.ephemeral else p,
             state := LISTEN, backlog := b, accepts_pending := 0 } ∧
    (srv.begin s p b).1._port = (if p = 0 then s.ephemeral else p) := by
  unfold WiFiServer.begin
  dsimp only
  cases h : srv._listen_pcb <;>
    simp [WiFiServer.close, tcp_close, tcp_new, tcp_bind, tcp_listen_with_backlog, h, ha, hbd,
      hlk, hb]

theorem map_cid_map (l : List ClientContext) (f : ClientContext → ClientContext)
    (hf : ∀ c, (f c).cid = c.cid) :
    (l.map f).map ClientContext.cid = l.map ClientContext.cid := by
  induction l with
  | nil => rfl
  | cons c l ih => simp [hf, ih]

theorem acceptN_ctx (q rest : List ClientContext) : ∀ (srv : WiFiServer) (gd : Bool),
    srv._unclaimed = q ++ rest →
    ((acceptN srv gd q.length).2).map WiFiClient.ctx = q.map some := by
  induction q with
  | nil => intro srv gd _; rfl
  | cons c q ih =>
    intro srv gd h
    have hhead := accept_head srv gd c (q ++ rest) (by simpa using h)
    simp only [List.length_cons, acceptN, List.map_cons]
    rw [ih (srv.accept gd).1 gd hhead.1, hhead.2]

theorem stepTrace_inv (gd : Bool) (t : Trace) (e : Event) (h : traceInv t) :
    traceInv (stepTrace gd t e) := by
  cases e with
  | beginEv p b =>
    simpa [stepTrace, traceInv, queueCids, begin_fst_unclaimed] using h
  | closeEv =>
    simpa [stepTrace, traceInv, queueCids, close_fst_unclaimed] using h
  | deliver a =>
    have : queueCids (t.srv._accept a) = queueCids t.srv ++ [a] := by
      simp [queueCids, accept_cb_unclaimed, newClientContext]
    simp only [stepTrace, traceInv] at h ⊢
    simp [this, h]
  | appAccept =>
    cases hq : t.srv._unclaimed with
    | nil =>
      simp only [stepTrace, traceInv] at h ⊢
      rw [accept_empty t.srv gd hq]
      simpa using h
    | cons c rest =>
      have hhead := accept_head t.srv gd c rest hq
      simp only [stepTrace, traceInv] at h ⊢
      rw [hhead.2]
      simp only [queueCids, hhead.1]
      simp only [queueCids, hq, List.map_cons] at h
      simp [h, List.append_assoc]
  | dataArrives i n =>
    simp only [stepTrace, traceInv, queueCids] at h ⊢
    rw [map_cid_map]
    · exact h
    · intro c; by_cases hc : c.cid = i <;> simp [hc]
  | peerCloses i =>
    simp only [stepTrace, traceInv, queueCids] at h ⊢
    rw [map_cid_map]
    · exact h
    · intro c; by_cases hc : c.cid = i <;> simp [hc]

theorem runTrace_inv (gd : Bool) (evs : List Event) : ∀ t : Trace,
    traceInv t → traceInv (runTrace gd t evs) := by
  induction evs with
  | nil => intro t h; exact h
  | cons e evs ih => intro t h; exact ih _ (stepTrace_inv gd t e h)

theorem close_of_none (srv : WiFiServer) (s : Stack) (h : srv._listen_pcb = none) :
    srv.close s = (srv, s) := by
  simp [WiFiServer.close, h]

theorem hasClientDataLoop_find (l : List ClientContext) :
    hasClientDataLoop l =
      ((l.find? (fun c => c.getSize != 0)).map ClientContext.getSize).getD 0 := by
  induction l with
  | nil => rfl
  | cons c rest ih =>
    by_cases h : c.getSize = 0
    · simp [hasClientDataLoop, List.find?_cons, h, ih]
    · simp [hasClientDataLoop, List.find?_cons, h]

/-! ### Claims -/

/-- Claim C1, counterexample: with `begin(1234, 3)` the configured backlog
capacity is 3; after three inbound connections and no `accept()` the stack's
pending-accept counter has reached that configured maximum (3), yet
`hasMaxPendingClients()` is still false, because the source compares against
the compile-time constant `MAX_PENDING_CLIENTS_PER_PORT = 5`, not against
the capacity passed to `begin`. -/
theorem C1_counterexample :
    srvBacklog3._listen_pcb =
      some { id := 1, local_port := 1234, state := LISTEN, backlog := 3,
             accepts_pending := 3 } ∧
    srvBacklog3.hasMaxPendingClients = false := by
  constructor <;> rfl

/-- Claim C1, amended: `hasMaxPendingClients()` returns true exactly when the
stack's pending-accept counter has reached the compile-time constant
`MAX_PENDING_CLIENTS_PER_PORT` (5), irrespective of the backlog capacity
passed to `begin`; in particular, after the accept callback has run for a
list of inbound connections starting from a zero counter, it returns true
iff at least `MAX_PENDING_CLIENTS_PER_PORT` of them are pending. -/
theorem C1_hasMaxPendingClients_amended :
    (∀ (srv : WiFiServer) (pcb : TcpPcb),
      ({ srv with _listen_pcb := some pcb } : WiFiServer).hasMaxPendingClients =
        decide (MAX_PENDING_CLIENTS_PER_PORT ≤ pcb.accepts_pending)) ∧
    (∀ (srv : WiFiServer) (pcb : TcpPcb) (hs : List Nat),
      (deliverAll
          { srv with _listen_pcb := some { pcb with accepts_pending := 0 } }
          hs).hasMaxPendingClients =
        decide (MAX_PENDING_CLIENTS_PER_PORT ≤ hs.length)) := by
  constructor
  · intro srv pcb
    simp [WiFiServer.hasMaxPendingClients]
  · intro srv pcb hs
    have h := deliverAll_listen_pcb hs
      { srv with _listen_pcb := some { pcb with accepts_pending := 0 } }
    simp only [Option.map_some] at h
    simp [WiFiServer.hasMaxPendingClients, h]

/-- Claim C2: connections delivered to the accept callback in order are
returned by successive `accept()` calls in the same order — the callback
appends at the tail, `accept()` pops the head. -/
theorem C2_accept_fifo (srv : WiFiServer) (gd : Bool) (hs : List Nat) :
    ((acceptN (deliverAll { srv with _unclaimed := [] } hs) gd hs.length).2).map
        WiFiClient.ctx =
      hs.map (fun h => some (newClientContext h)) := by
  have hq := deliverAll_unclaimed hs { srv with _unclaimed := [] }
  simp only [List.nil_append] at hq
  have h := acceptN_ctx (hs.map newClientContext) []
    (deliverAll { srv with _unclaimed := [] } hs) gd (by simpa using hq)
  simpa [List.map_map, Function.comp] using h

/-- Claim C3: `hasClientData()` returns the buffered-byte count of the first
context, scanning head-to-tail, whose buffer is non-empty (0 when none has
data); with a head context holding 0 bytes and a second holding 5, it
returns 5 while `accept()` still returns the head context. -/
theorem C3_hasClientData_peek :
    (∀ srv : WiFiServer,
      srv.hasClientData =
        ((srv._unclaimed.find? (fun c => c.getSize != 0)).map
            ClientContext.getSize).getD 0) ∧
    peekQueueSrv.hasClientData = 5 ∧
    ((peekQueueSrv.accept false).2).ctx =
      some { cid := 1, getPCB := some 1, getSize := 0 } := by
  exact ⟨fun srv => hasClientDataLoop_find srv._unclaimed, rfl, rfl⟩

/-- Claim C4: the accept callback unconditionally wraps the new handle in a
context appended at the tail of the pending queue, and over every event
sequence from an empty queue the produced-history equals the claimed-history
followed by the current queue: the queue holds exactly the callback-produced
contexts not yet returned by `accept()`. -/
theorem C4_queue_invariant :
    (∀ (srv : WiFiServer) (apcb : Nat),
      (srv._accept apcb)._unclaimed = srv._unclaimed ++ [newClientContext apcb]) ∧
    (∀ (gd : Bool) (srv0 : WiFiServer) (stk0 : Stack) (evs : List Event),
      (runTrace gd { srv := { srv0 with _unclaimed := [] }, stk := stk0,
                     produced := [], claimed := [] } evs).produced =
        (runTrace gd { srv := { srv0 with _unclaimed := [] }, stk := stk0,
                       produced := [], claimed := [] } evs).claimed ++
          queueCids (runTrace gd { srv := { srv0 with _unclaimed := [] },
                                   stk := stk0, produced := [],
                                   claimed := [] } evs).srv) := by
  refine ⟨accept_cb_unclaimed, fun gd srv0 stk0 evs => ?_⟩
  have h0 : traceInv { srv := { srv0 with _unclaimed := [] }, stk := stk0,
                       produced := [], claimed := ([] : List Nat) } := by
    simp [traceInv, queueCids]
  exact runTrace_inv gd evs _ h0

/-- Claim C5, counterexample: a listener opened with `begin(80, 5)` that has
one queued, unclaimed connection; a subsequent `begin(80, 0)` closes the
listener (`status() = CLOSED`) but `hasClient()` is still true, contradicting
the claim that `hasClient()` is false after every `begin(port, 0)`. -/
theorem C5_counterexample :
    zeroedSrv.1.status = CLOSED ∧ zeroedSrv.1.hasClient = true := by
  constructor <;> rfl

/-- Claim C5, amended: `begin(p, 0)` is exactly `close()`: any listening
handle is closed, no new one is created, and `status() = CLOSED` afterwards;
`hasClient()` is false provided the pending queue was empty beforehand
(`begin` does not drain previously queued contexts). -/
theorem C5_zero_backlog_amended (srv : WiFiServer) (s : Stack) (p : Nat) :
    srv.begin s p 0 = srv.close s ∧
    (srv.begin s p 0).1.status = CLOSED ∧
    (({ srv with _unclaimed := [] } : WiFiServer).begin s p 0).1.hasClient = false := by
  refine ⟨begin_zero_backlog srv s p, ?_, ?_⟩
  · rw [begin_zero_backlog]
    simp [WiFiServer.status, close_fst_listen_pcb]
  · rw [begin_zero_backlog]
    have h := close_fst_unclaimed { srv with _unclaimed := ([] : List ClientContext) } s
    simp only at h
    simp [WiFiServer.hasClient, h]

/-- Claim C6: `begin` signals no error: whenever the stack fails at handle
allocation, bind, or listen, the listener ends with no listening handle,
`status()` reports the closed-state sentinel, and the stack's live-handle set
equals what it was after the initial `close()` (every intermediate handle was
released). -/
theorem C6_begin_silent_failure (srv : WiFiServer) (s : Stack) (p b : Nat)
    (hfail : s.allocOk = false ∨ s.bindOk = false ∨ s.listenOk = false) :
    (srv.begin s p b).1._listen_pcb = none ∧
    (srv.begin s p b).1.status = CLOSED ∧
    ((srv.begin s p b).2).live = ((srv.close s).2).live := by
  obtain ⟨h1, h2⟩ := begin_fail srv s p b hfail
  exact ⟨h1, by simp [WiFiServer.status, h1], h2⟩

/-- Claim C6, witness: a concrete bind failure on `begin(80, 5)`. -/
theorem C6_witness :
    ((mkWiFiServer 0 80).begin { okStack with bindOk := false } 80 5).1._listen_pcb
      = none ∧
    ((mkWiFiServer 0 80).begin { okStack with bindOk := false } 80 5).1.status
      = CLOSED ∧
    (((mkWiFiServer 0 80).begin { okStack with bindOk := false } 80 5).2).live =
      (((mkWiFiServer 0 80).close { okStack with bindOk := false }).2).live :=
  C6_begin_silent_failure (mkWiFiServer 0 80) { okStack with bindOk := false } 80 5
    (Or.inr (Or.inl rfl))

/-- Claim C7: `close()` is idempotent (the second of two consecutive calls
changes nothing), leaves `status() = CLOSED`, is a no-op when the listener
was never opened, and `stop()` is its alias. -/
theorem C7_close_idempotent (srv : WiFiServer) (s : Stack) :
    ((srv.close s).1.close (srv.close s).2) = srv.close s ∧
    (srv.close s).1.status = CLOSED ∧
    ({ srv with _listen_pcb := none } : WiFiServer).close s =
      ({ srv with _listen_pcb := none }, s) ∧
    srv.stop s = srv.close s := by
  refine ⟨?_, ?_, ?_, rfl⟩
  · rw [close_of_none (srv.close s).1 (srv.close s).2 (close_fst_listen_pcb srv s)]
  · simp [WiFiServer.status, close_fst_listen_pcb]
  · exact close_of_none _ s rfl

/-- Claim C8: after a successful `begin`, `port()` returns the effective
bound port recorded from the listening handle; with requested port 0 and a
non-zero stack-assigned ephemeral port, `port()` is that non-zero port. -/
theorem C8_effective_port (srv : WiFiServer) (s : Stack) (p b : Nat)
    (hb : b ≠ 0) (ha : s.allocOk = true) (hbd : s.bindOk = true)
    (hlk : s.listenOk = true) :
    (srv.begin s p b).1.port = (if p = 0 then s.ephemeral else p) ∧
    (∃ pcb : TcpPcb, (srv.begin s p b).1._listen_pcb = some pcb ∧
      pcb.local_port = (srv.begin s p b).1.port) ∧
    (p = 0 → s.ephemeral ≠ 0 → (srv.begin s p b).1.port ≠ 0) := by
  obtain ⟨hpcb, hport⟩ := begin_success srv s p b hb ha hbd hlk
  refine ⟨hport, ⟨_, hpcb, ?_⟩, ?_⟩
  · simp only [WiFiServer.port] at hport ⊢
    rw [hport]
  · intro hp he
    simp only [WiFiServer.port] at hport ⊢
    rw [hport, if_pos hp]
    exact he

/-- Claim C8, witness: `begin(0, 5)` against a stack assigning ephemeral
port 49152. -/
theorem C8_witness :
    ((mkWiFiServer 0 1234).begin okStack 0 5).1.port = 49152 ∧
    ((mkWiFiServer 0 1234).begin okStack 0 5).1.port ≠ 0 := by
  have h := C8_effective_port (mkWiFiServer 0 1234) okStack 0 5 (by decide) rfl rfl rfl
  exact ⟨by simpa using h.1, h.2.2 rfl (by decide)⟩

/-- Claim C9: when the popped head context's underlying handle is already
null, `accept()` skips the backlog-slot release (the listener and stack state
are untouched), still removes the head, applies the no-delay policy, and
returns the context. -/
theorem C9_accept_null_pcb (srv : WiFiServer) (i n : Nat)
    (rest : List ClientContext) (gd : Bool) :
    ({ srv with
       _unclaimed := { cid := i, getPCB := none, getSize := n } :: rest }
        : WiFiServer).accept gd =
      ({ srv with _unclaimed := rest },
       { ctx := some { cid := i, getPCB := none, getSize := n },
         noDelay := some (srv.getNoDelay gd) }) := by
  rfl

/-- Claim C10: `begin(p, 0)` leaves the stored port unchanged — `port()`
afterwards returns the previously configured port, and in particular not `p`
when `p` differs from it. -/
theorem C10_zero_backlog_port_frame (srv : WiFiServer) (s : Stack) (p : Nat) :
    (srv.begin s p 0).1.port = srv.port ∧
    (srv.port ≠ p → (srv.begin s p 0).1.port ≠ p) := by
  have h : (srv.begin s p 0).1.port = srv.port := by
    rw [begin_zero_backlog]
    exact close_fst_port srv s
  exact ⟨h, fun hne => h ▸ hne⟩

/-- Claim C10, witness: a server configured on port 80; `begin(9999, 0)`
leaves `port()` at 80, not 9999. -/
theorem C10_witness :
    ((mkWiFiServer 0 80).begin okStack 9999 0).1.port = (mkWiFiServer 0 80).port ∧
    ((mkWiFiServer 0 80).begin okStack 9999 0).1.port ≠ 9999 := by
  have h := C10_zero_backlog_port_frame (mkWiFiServer 0 80) okStack 9999
  exact ⟨h.1, h.2 (by decide)⟩

end WiFiServerModel
